import Mathlib

/-!
Verification development for the `rayalign` driver of raycloudtools
(src/raycloudtools/rayalign/rayalign.cpp).

The driver's own logic — argument dispatch, landmark selection over cloud A's
end-points, the coarse/fine alignment sequencing, transform reporting and
output-file naming — is embedded directly from the source.  The collaborators
it calls (`ray::parseCommandLine`, `ray::Cloud::load/save`,
`alignCloud0ToCloud1`, `ray::FineAlignment`, `ray::alignCloudToAxes`,
`Eigen::umeyama`, `Eigen::...::eulerAngles`) live outside the sources under
verification; they appear as oracle fields of an `Env` record, so every
theorem about the driver quantifies over their behaviour.  Coordinates are
modelled as rationals; the driver's comparisons and control flow do not
depend on rounding.
-/

namespace RayAlignTool

/-- Three-dimensional point with rational coordinates, standing for
`Eigen::Vector3d` end-points of a ray cloud. -/
structure V3 where
  x : ℚ
  y : ℚ
  z : ℚ
deriving DecidableEq, Repr, Inhabited

/-- Cloud A or B as the list of its end-points (`clouds[i].ends`);
origins, times and colours play no role in the claims. -/
abbrev Cloud := List V3

/-- Unchecked indexing `clouds[0].ends[i]`, as in the C++ `operator[]`:
the embedding totalises it with a default, and the Option-returning
variant below makes the bounds question explicit. -/
def getP (ends : Cloud) (i : Nat) : V3 :=
  ends.getD i default

/-- One conditional update of a running least-key index, the shape shared by
the three `if` statements of the landmark loop (rayalign.cpp lines 65-73):
`if (f i < f m) m = i`. -/
def selStep (f : Nat → ℚ) (m i : Nat) : Nat :=
  if f i < f m then i else m

/-- Running the conditional update over indices `0..n-1` starting from 0,
exactly as the C++ loop initialises `min_i = 0` and scans upward. -/
def selUpto (f : Nat → ℚ) (n : Nat) : Nat :=
  (List.range n).foldl (selStep f) 0

/-- One iteration of the landmark-selection loop body
(rayalign.cpp lines 67-72): three independent strict-comparison updates of
`min_i`, `max_i`, `min_j` against end-point `i`. -/
def lmStep (ends : Cloud) (s : Nat × Nat × Nat) (i : Nat) : Nat × Nat × Nat :=
  (if (getP ends i).x < (getP ends s.1).x then i else s.1,
   if (getP ends i).x > (getP ends s.2.1).x then i else s.2.1,
   if (getP ends i).y < (getP ends s.2.2).y then i else s.2.2)

/-- The landmark loop run over indices `0..n-1` from state `(0,0,0)`. -/
def lmUpto (ends : Cloud) (n : Nat) : Nat × Nat × Nat :=
  (List.range n).foldl (lmStep ends) (0, 0, 0)

/-- The indices `(min_i, max_i, min_j)` computed by the loop at
rayalign.cpp lines 64-73. -/
def landmarkIndices (ends : Cloud) : Nat × Nat × Nat :=
  lmUpto ends ends.length

/-- The landmark points `p_orig` (columns 0,1,2 of the 3x3 matrix built at
rayalign.cpp lines 74-77): end-points at `min_i`, `max_i`, `min_j`. -/
def landmarks (ends : Cloud) : V3 × V3 × V3 :=
  (getP ends (landmarkIndices ends).1,
   getP ends (landmarkIndices ends).2.1,
   getP ends (landmarkIndices ends).2.2)

/-- Option-returning variant of the loop body: every subscript of `ends`
is a checked access, `none` meaning an out-of-bounds read. -/
def lmStepChecked (ends : Cloud) (s : Nat × Nat × Nat) (i : Nat) :
    Option (Nat × Nat × Nat) := do
  let pcur ← ends.get? i
  let pmi ← ends.get? s.1
  let pma ← ends.get? s.2.1
  let pmj ← ends.get? s.2.2
  pure (if pcur.x < pmi.x then i else s.1,
        if pcur.x > pma.x then i else s.2.1,
        if pcur.y < pmj.y then i else s.2.2)

/-- Checked landmark-index computation: `none` iff some access of the loop
would be out of bounds. -/
def landmarkIndicesChecked (ends : Cloud) : Option (Nat × Nat × Nat) :=
  (List.range ends.length).foldlM (lmStepChecked ends) (0, 0, 0)

/-- Checked construction of `p_orig` (rayalign.cpp lines 74-77): the three
end-point reads at the selected indices, each bounds-checked. -/
def landmarksChecked (ends : Cloud) : Option (V3 × V3 × V3) := do
  let s ← landmarkIndicesChecked ends
  let a ← ends.get? s.1
  let b ← ends.get? s.2.1
  let c ← ends.get? s.2.2
  pure (a, b, c)

/-- Rotation block of the recovered transform, three rows of rationals
(`transform_matrix.block<3,3>(0,0)`). -/
structure Mat3 where
  row0 : V3
  row1 : V3
  row2 : V3
deriving DecidableEq, Repr, Inhabited

/-- Error taxonomy of the spec (section 7).  The embedding carries it so that
statements about which errors the driver can raise are expressible; the
source of rayalign.cpp signals failures only through `usage()` and never
constructs any of these. -/
inductive ErrorKind where
  | loadFailure
  | insufficientStructure
  | degenerateLandmarks
deriving DecidableEq, Repr

/-- Observable actions of one `rayAlign` run, in order: console output, file
saves, and the entry into each pipeline stage. -/
inductive Event where
  | printUsage
  | saveFile (name : String) (c : Cloud)
  | coarseAlignRun
  | fineAlignRun (nonRigid : Bool)
  | recover (pOrig pAligned : V3 × V3 × V3)
  | printTransform (stub : String) (rollDeg pitchDeg yawDeg : ℚ) (t : V3)
  | printApproxNote
  | raiseError (k : ErrorKind)
deriving DecidableEq, Repr

/-- Environment of one invocation: the results and behaviour of every
collaborator the driver calls, plus the parsed flags.

Modelled from the spec (section 6, out-of-scope collaborators): `crossParse`
and `selfParse` are the two `ray::parseCommandLine` results; `loadA`/`loadB`
are the `ray::Cloud::load` results (`none` = failure); `axisAlignOk` and
`axisOut` are `ray::alignCloudToAxes`'s success flag and the aligned cloud it
writes to its output-name argument on success; `coarse` and `fine` are the
effect of `alignCloud0ToCloud1` and `ray::FineAlignment::align` on cloud A's
end-points; `umeyama` is `Eigen::umeyama` (first argument = the
`with_scaling` flag, result = rotation block and translation block);
`eulerAngles` is Eigen's `eulerAngles(0, 1, 2)` extraction, components in
roll, pitch, yaw order (radians); `piVal` is `ray::kPi`. -/
structure Env where
  crossParse : Bool
  selfParse : Bool
  nonrigid : Bool
  verbose : Bool
  loc : Bool
  stubA : String
  loadA : Option Cloud
  loadB : Option Cloud
  axisAlignOk : Bool
  axisOut : Cloud
  coarse : Cloud → Cloud → Cloud
  fine : Bool → Cloud → Cloud → Cloud
  umeyama : Bool → (V3 × V3 × V3) → (V3 × V3 × V3) → Mat3 × V3
  eulerAngles : Mat3 → V3
  piVal : ℚ

/-- Cloud A after the optional coarse stage (rayalign.cpp lines 82-87) and
the fine stage (lines 89-90), as mutated in place by the source. -/
def crossMoved (env : Env) (a b : Cloud) : Cloud :=
  env.fine env.nonrigid (if env.loc then a else env.coarse a b) b

/-- The landmark positions re-read after alignment (`p_aligned`,
rayalign.cpp lines 93-96): the same indices, on the mutated cloud. -/
def pAlignedOf (env : Env) (a b : Cloud) : V3 × V3 × V3 :=
  (getP (crossMoved env a b) (landmarkIndices a).1,
   getP (crossMoved env a b) (landmarkIndices a).2.1,
   getP (crossMoved env a b) (landmarkIndices a).2.2)

/-- The recovered transform (rayalign.cpp lines 98-100):
`Eigen::umeyama(p_orig, p_aligned, false)` split into rotation and
translation blocks.  The scaling flag is the literal `false` of the call. -/
def crossRecovered (env : Env) (a b : Cloud) : Mat3 × V3 :=
  env.umeyama false (landmarks a) (pAlignedOf env a b)

/-- Events of the cross-cloud branch from the fine-alignment call onward
(rayalign.cpp lines 89-113): fine alignment, transform recovery, the
transform report (Euler angles converted to degrees in roll, pitch, yaw
order, then the translation), the approximation note when non-rigid, and
the final save of the aligned cloud. -/
def crossTail (env : Env) (a b : Cloud) : List Event :=
  [Event.fineAlignRun env.nonrigid,
   Event.recover (landmarks a) (pAlignedOf env a b),
   Event.printTransform env.stubA
     ((env.eulerAngles (crossRecovered env a b).1).x * 180 / env.piVal)
     ((env.eulerAngles (crossRecovered env a b).1).y * 180 / env.piVal)
     ((env.eulerAngles (crossRecovered env a b).1).z * 180 / env.piVal)
     (crossRecovered env a b).2] ++
  (if env.nonrigid then [Event.printApproxNote] else []) ++
  [Event.saveFile (env.stubA ++ "_aligned.ply") (crossMoved env a b)]

/-- The event trace of the successful cross-cloud branch
(rayalign.cpp lines 55-113), in source order: unless `--local` is set,
the coarse stage runs first (saving its diagnostic cloud when verbose),
then the tail from fine alignment onward. -/
def crossEvents (env : Env) (a b : Cloud) : List Event :=
  (if env.loc then [] else
    Event.coarseAlignRun ::
      (if env.verbose then
        [Event.saveFile (env.stubA ++ "_coarse_aligned.ply") (env.coarse a b)]
      else [])) ++
  crossTail env a b

/-- The whole driver `rayAlign` (rayalign.cpp lines 38-116): event trace and
exit status.  `usage()` prints the usage text and exits with its default
argument 1. -/
def rayAlign (env : Env) : List Event × Nat :=
  if ¬ env.crossParse ∧ ¬ env.selfParse then ([Event.printUsage], 1)
  else if env.selfParse then
    if env.axisAlignOk then
      ([Event.saveFile (env.stubA ++ "_aligned.ply") env.axisOut], 0)
    else ([Event.printUsage], 1)
  else
    match env.loadA with
    | none => ([Event.printUsage], 1)
    | some a =>
      match env.loadB with
      | none => ([Event.printUsage], 1)
      | some b => (crossEvents env a b, 0)

/-! Lemmas about the selection fold. -/

lemma selUpto_zero (f : Nat → ℚ) : selUpto f 0 = 0 := rfl

lemma selUpto_succ (f : Nat → ℚ) (n : Nat) :
    selUpto f (n + 1) = selStep f (selUpto f n) n := by
  unfold selUpto
  rw [List.range_succ, List.foldl_append, List.foldl_cons, List.foldl_nil]

/-- Invariant of the running-minimum fold: the result index is in range (or
the trivial 0 on an empty range), its key is minimal over the range, and
every strictly smaller index has a strictly larger key (so it is the least
index attaining the minimum — the comparison being strict, ties never move
the index). -/
lemma selUpto_inv (f : Nat → ℚ) (n : Nat) :
    (selUpto f n < n ∨ (n = 0 ∧ selUpto f n = 0)) ∧
    (∀ k < n, f (selUpto f n) ≤ f k) ∧
    (∀ k < selUpto f n, f (selUpto f n) < f k) := by
  induction n with
  | zero =>
    refine ⟨Or.inr ⟨rfl, rfl⟩, ?_, ?_⟩
    · intro k hk; exact absurd hk (Nat.not_lt_zero k)
    · intro k hk; rw [selUpto_zero] at hk; exact absurd hk (Nat.not_lt_zero k)
  | succ n ih =>
    obtain ⟨hbd, hmin, hleast⟩ := ih
    rw [selUpto_succ]
    unfold selStep
    by_cases h : f n < f (selUpto f n)
    · rw [if_pos h]
      refine ⟨Or.inl (Nat.lt_succ_self n), ?_, ?_⟩
      · intro k hk
        rcases Nat.lt_succ_iff_lt_or_eq.mp hk with hk | hk
        · exact le_of_lt (lt_of_lt_of_le h (hmin k hk))
        · subst hk; exact le_refl _
      · intro k hk
        exact lt_of_lt_of_le h (hmin k hk)
    · rw [if_neg h]
      refine ⟨?_, ?_, hleast⟩
      · rcases hbd with hb | ⟨hn0, hm0⟩
        · exact Or.inl (Nat.lt_succ_of_lt hb)
        · subst hn0; rw [hm0]; exact Or.inl Nat.zero_lt_one
      · intro k hk
        rcases Nat.lt_succ_iff_lt_or_eq.mp hk with hk | hk
        · exact hmin k hk
        · subst hk; exact not_lt.mp h

lemma lmUpto_succ (ends : Cloud) (n : Nat) :
    lmUpto ends (n + 1) = lmStep ends (lmUpto ends n) n := by
  unfold lmUpto
  rw [List.range_succ, List.foldl_append, List.foldl_cons, List.foldl_nil]

/-- The three components of the landmark loop are three independent
running-minimum folds: over x, over negated x (a running maximum), and
over y. -/
lemma lmUpto_eq_selUpto (ends : Cloud) (n : Nat) :
    lmUpto ends n =
      (selUpto (fun i => (getP ends i).x) n,
       selUpto (fun i => -(getP ends i).x) n,
       selUpto (fun i => (getP ends i).y) n) := by
  induction n with
  | zero => rfl
  | succ n ih =>
    rw [lmUpto_succ, selUpto_succ, selUpto_succ, selUpto_succ, ih]
    unfold lmStep selStep
    refine congrArg₂ Prod.mk ?_ (congrArg₂ Prod.mk ?_ ?_)
    · rfl
    · simp only [gt_iff_lt, neg_lt_neg_iff]
    · rfl

lemma getP_mem (ends : Cloud) (i : Nat) (h : i < ends.length) :
    getP ends i ∈ ends := by
  unfold getP
  rw [List.getD_eq_getElem ends default h]
  exact List.getElem_mem h

lemma get?_eq_getP (ends : Cloud) (i : Nat) (h : i < ends.length) :
    ends.get? i = some (getP ends i) := by
  unfold getP
  rw [List.getD_eq_getElem ends default h, List.get?_eq_getElem?,
    List.getElem?_eq_getElem h]

lemma lmUpto_components_lt (ends : Cloud) (h : ends ≠ []) (n : Nat)
    (hn : n ≤ ends.length) :
    (lmUpto ends n).1 < ends.length ∧
    (lmUpto ends n).2.1 < ends.length ∧
    (lmUpto ends n).2.2 < ends.length := by
  have hpos : 0 < ends.length := List.length_pos.mpr h
  rw [lmUpto_eq_selUpto]
  refine ⟨?_, ?_, ?_⟩
  · show selUpto (fun i => (getP ends i).x) n < ends.length
    rcases (selUpto_inv (fun i => (getP ends i).x) n).1 with hb | ⟨_, h0⟩
    · exact lt_of_lt_of_le hb hn
    · rw [h0]; exact hpos
  · show selUpto (fun i => -(getP ends i).x) n < ends.length
    rcases (selUpto_inv (fun i => -(getP ends i).x) n).1 with hb | ⟨_, h0⟩
    · exact lt_of_lt_of_le hb hn
    · rw [h0]; exact hpos
  · show selUpto (fun i => (getP ends i).y) n < ends.length
    rcases (selUpto_inv (fun i => (getP ends i).y) n).1 with hb | ⟨_, h0⟩
    · exact lt_of_lt_of_le hb hn
    · rw [h0]; exact hpos

lemma landmarkIndices_lt (ends : Cloud) (h : ends ≠ []) :
    (landmarkIndices ends).1 < ends.length ∧
    (landmarkIndices ends).2.1 < ends.length ∧
    (landmarkIndices ends).2.2 < ends.length :=
  lmUpto_components_lt ends h ends.length (le_refl _)

/-- On a nonempty cloud the checked landmark loop performs no out-of-bounds
access and agrees with the total embedding. -/
lemma landmarkIndicesChecked_eq (ends : Cloud) (h : ends ≠ []) :
    landmarkIndicesChecked ends = some (landmarkIndices ends) := by
  have key : ∀ n, n ≤ ends.length →
      (List.range n).foldlM (lmStepChecked ends) ((0 : Nat), (0 : Nat), (0 : Nat)) =
        some (lmUpto ends n) := by
    intro n
    induction n with
    | zero => intro _; rfl
    | succ n ih =>
      intro hn
      have hn' : n ≤ ends.length := Nat.le_of_succ_le hn
      have hnlt : n < ends.length := hn
      obtain ⟨h1, h2, h3⟩ := lmUpto_components_lt ends h n hn'
      rw [List.range_succ, List.foldlM_append, ih hn']
      rw [lmUpto_succ]
      simp only [List.foldlM_cons, List.foldlM_nil, Option.bind_eq_bind,
        Option.some_bind]
      unfold lmStepChecked
      rw [get?_eq_getP ends n hnlt, get?_eq_getP ends _ h1,
        get?_eq_getP ends _ h2, get?_eq_getP ends _ h3]
      simp only [Option.bind_eq_bind, Option.some_bind, Option.pure_def]
      rfl
  exact key ends.length (le_refl _)

lemma landmarksChecked_eq (ends : Cloud) (h : ends ≠ []) :
    landmarksChecked ends = some (landmarks ends) := by
  obtain ⟨h1, h2, h3⟩ := landmarkIndices_lt ends h
  unfold landmarksChecked landmarks
  rw [landmarkIndicesChecked_eq ends h]
  simp only [Option.bind_eq_bind, Option.some_bind]
  rw [get?_eq_getP ends _ h1, get?_eq_getP ends _ h2, get?_eq_getP ends _ h3]
  simp only [Option.bind_eq_bind, Option.some_bind, Option.pure_def]

lemma mem_iff_getP (ends : Cloud) (p : V3) :
    p ∈ ends ↔ ∃ i, i < ends.length ∧ getP ends i = p := by
  rw [List.mem_iff_getElem]
  constructor
  · rintro ⟨i, hi, rfl⟩
    exact ⟨i, hi, by rw [getP, List.getD_eq_getElem ends default hi]⟩
  · rintro ⟨i, hi, rfl⟩
    exact ⟨i, hi, by rw [getP, List.getD_eq_getElem ends default hi]⟩

/-- Small concrete cloud used by the closed witness statements. -/
def demoCloud : Cloud :=
  [⟨3, 5, 0⟩, ⟨-2, 7, 1⟩, ⟨9, -4, 2⟩, ⟨0, 0, 3⟩]

/-- C2: for every non-empty cloud A in cross-cloud mode, the landmark set is
exactly the 3 end-points of minimum X, maximum X, and minimum Y among A's
end-points, and the recovery step receives exactly these pre-alignment
positions as `p_orig` — they are selected from the cloud as loaded, before
any alignment stage runs. -/
theorem landmark_set_extremal_endpoints (ends : Cloud) (h : ends ≠ []) :
    (landmarks ends).1 ∈ ends ∧
    (landmarks ends).2.1 ∈ ends ∧
    (landmarks ends).2.2 ∈ ends ∧
    (∀ p ∈ ends, (landmarks ends).1.x ≤ p.x) ∧
    (∀ p ∈ ends, p.x ≤ (landmarks ends).2.1.x) ∧
    (∀ p ∈ ends, (landmarks ends).2.2.y ≤ p.y) ∧
    (∀ env : Env, ∀ b : Cloud, env.selfParse = false → env.crossParse = true →
      env.loadA = some ends → env.loadB = some b →
      Event.recover (landmarks ends) (pAlignedOf env ends b) ∈ (rayAlign env).1) := by
  obtain ⟨h1, h2, h3⟩ := landmarkIndices_lt ends h
  refine ⟨getP_mem ends _ h1, getP_mem ends _ h2, getP_mem ends _ h3, ?_, ?_, ?_, ?_⟩
  · intro p hp
    obtain ⟨i, hi, rfl⟩ := (mem_iff_getP ends p).1 hp
    show (getP ends (landmarkIndices ends).1).x ≤ (getP ends i).x
    rw [landmarkIndices, lmUpto_eq_selUpto]
    exact (selUpto_inv (fun j => (getP ends j).x) ends.length).2.1 i hi
  · intro p hp
    obtain ⟨i, hi, rfl⟩ := (mem_iff_getP ends p).1 hp
    show (getP ends i).x ≤ (getP ends (landmarkIndices ends).2.1).x
    rw [landmarkIndices, lmUpto_eq_selUpto]
    have := (selUpto_inv (fun j => -(getP ends j).x) ends.length).2.1 i hi
    exact le_of_neg_le_neg this
  · intro p hp
    obtain ⟨i, hi, rfl⟩ := (mem_iff_getP ends p).1 hp
    show (getP ends (landmarkIndices ends).2.2).y ≤ (getP ends i).y
    rw [landmarkIndices, lmUpto_eq_selUpto]
    exact (selUpto_inv (fun j => (getP ends j).y) ends.length).2.1 i hi
  · intro env b hself hcross hla hlb
    unfold rayAlign
    rw [hcross, hself, hla, hlb]
    simp only [Bool.not_eq_true, Bool.true_eq_false, false_and, and_false,
      Bool.false_eq_true, if_false, ite_false, ite_true, Bool.not_true,
      Bool.not_false, not_true, not_false_iff, and_true, true_and]
    show Event.recover (landmarks ends) (pAlignedOf env ends b) ∈ crossEvents env ends b
    unfold crossEvents crossTail
    simp [List.mem_append]

/-- Closed instantiation of the landmark-set theorem on a concrete cloud. -/
theorem landmark_set_extremal_endpoints_witness :
    demoCloud ≠ [] ∧
    ((landmarks demoCloud).1 ∈ demoCloud ∧
     (landmarks demoCloud).2.1 ∈ demoCloud ∧
     (landmarks demoCloud).2.2 ∈ demoCloud ∧
     (∀ p ∈ demoCloud, (landmarks demoCloud).1.x ≤ p.x) ∧
     (∀ p ∈ demoCloud, p.x ≤ (landmarks demoCloud).2.1.x) ∧
     (∀ p ∈ demoCloud, (landmarks demoCloud).2.2.y ≤ p.y) ∧
     (∀ env : Env, ∀ b : Cloud, env.selfParse = false → env.crossParse = true →
       env.loadA = some demoCloud → env.loadB = some b →
       Event.recover (landmarks demoCloud) (pAlignedOf env demoCloud b) ∈
         (rayAlign env).1)) :=
  ⟨List.cons_ne_nil _ _, landmark_set_extremal_endpoints demoCloud (List.cons_ne_nil _ _)⟩

/-- C9: landmark selection requires a non-empty cloud A (it unconditionally
reads end-point 0 through the indices initialised to 0); for every non-empty
cloud all of its end-point accesses are in bounds, and the checked
(Option-returning) embedding never takes the out-of-bounds branch and agrees
with the total one. -/
theorem landmark_access_in_bounds (ends : Cloud) (h : ends ≠ []) :
    (landmarkIndices ends).1 < ends.length ∧
    (landmarkIndices ends).2.1 < ends.length ∧
    (landmarkIndices ends).2.2 < ends.length ∧
    landmarkIndicesChecked ends = some (landmarkIndices ends) ∧
    landmarksChecked ends = some (landmarks ends) := by
  obtain ⟨h1, h2, h3⟩ := landmarkIndices_lt ends h
  exact ⟨h1, h2, h3, landmarkIndicesChecked_eq ends h, landmarksChecked_eq ends h⟩

/-- Closed instantiation of the bounds theorem on a concrete cloud. -/
theorem landmark_access_in_bounds_witness :
    demoCloud ≠ [] ∧
    ((landmarkIndices demoCloud).1 < demoCloud.length ∧
     (landmarkIndices demoCloud).2.1 < demoCloud.length ∧
     (landmarkIndices demoCloud).2.2 < demoCloud.length ∧
     landmarkIndicesChecked demoCloud = some (landmarkIndices demoCloud) ∧
     landmarksChecked demoCloud = some (landmarks demoCloud)) :=
  ⟨List.cons_ne_nil _ _, landmark_access_in_bounds demoCloud (List.cons_ne_nil _ _)⟩

/-- C10: landmark selection is deterministic including ties — the strict
comparisons make `min_i`, `max_i`, `min_j` the smallest index attaining each
extremum (every earlier index has a strictly worse key), and two runs on
equal clouds select identical indices. -/
theorem landmark_selection_deterministic :
    (∀ ends : Cloud,
      (∀ k < (landmarkIndices ends).1,
        (getP ends (landmarkIndices ends).1).x < (getP ends k).x) ∧
      (∀ k < (landmarkIndices ends).2.1,
        (getP ends k).x < (getP ends (landmarkIndices ends).2.1).x) ∧
      (∀ k < (landmarkIndices ends).2.2,
        (getP ends (landmarkIndices ends).2.2).y < (getP ends k).y)) ∧
    (∀ c1 c2 : Cloud, c1 = c2 → landmarkIndices c1 = landmarkIndices c2) := by
  constructor
  · intro ends
    refine ⟨?_, ?_, ?_⟩
    · intro k hk
      rw [landmarkIndices, lmUpto_eq_selUpto] at hk ⊢
      exact (selUpto_inv (fun j => (getP ends j).x) ends.length).2.2 k hk
    · intro k hk
      rw [landmarkIndices, lmUpto_eq_selUpto] at hk ⊢
      have := (selUpto_inv (fun j => -(getP ends j).x) ends.length).2.2 k hk
      exact lt_of_neg_lt_neg this
    · intro k hk
      rw [landmarkIndices, lmUpto_eq_selUpto] at hk ⊢
      exact (selUpto_inv (fun j => (getP ends j).y) ends.length).2.2 k hk
  · intro c1 c2 hc
    rw [hc]

/-- Closed instantiation of the determinism theorem on a concrete cloud. -/
theorem landmark_selection_deterministic_witness :
    demoCloud = demoCloud ∧ landmarkIndices demoCloud = landmarkIndices demoCloud :=
  ⟨rfl, landmark_selection_deterministic.2 demoCloud demoCloud rfl⟩

lemma rayAlign_cross (env : Env) (a b : Cloud)
    (hself : env.selfParse = false) (hcross : env.crossParse = true)
    (hla : env.loadA = some a) (hlb : env.loadB = some b) :
    rayAlign env = (crossEvents env a b, 0) := by
  unfold rayAlign
  rw [hcross, hself, hla, hlb]
  simp

/-- Second cloud used by the closed witness statements. -/
def cloudB : Cloud := [⟨0, 0, 0⟩]

/-- Concrete environment exercising the successful cross-cloud branch:
two-cloud parse succeeded, all flags set, trivial collaborator behaviour. -/
def envDemo : Env where
  crossParse := true
  selfParse := false
  nonrigid := true
  verbose := true
  loc := false
  stubA := "cloudA"
  loadA := some demoCloud
  loadB := some cloudB
  axisAlignOk := false
  axisOut := []
  coarse := fun c _ => c
  fine := fun _ c _ => c
  umeyama := fun _ _ _ => (⟨⟨1, 0, 0⟩, ⟨0, 1, 0⟩, ⟨0, 0, 1⟩⟩, ⟨0, 0, 0⟩)
  eulerAngles := fun _ => ⟨0, 0, 0⟩
  piVal := 355 / 113

/-- Concrete environment on which both command-line parses failed. -/
def envFail : Env := { envDemo with crossParse := false, selfParse := false }

/-- C4: in cross-cloud mode the coarse aligner runs iff `--local` is not
set; whenever it runs, the fine aligner runs after it; and the fine aligner
and the transform recovery run on every successful cross-cloud invocation,
regardless of flags. -/
theorem pipeline_stage_sequencing (env : Env) (a b : Cloud)
    (hself : env.selfParse = false) (hcross : env.crossParse = true)
    (hla : env.loadA = some a) (hlb : env.loadB = some b) :
    (Event.coarseAlignRun ∈ (rayAlign env).1 ↔ env.loc = false) ∧
    (env.loc = false →
      ∃ l1 l2, (rayAlign env).1 = l1 ++ Event.coarseAlignRun :: l2 ∧
        Event.fineAlignRun env.nonrigid ∈ l2) ∧
    Event.fineAlignRun env.nonrigid ∈ (rayAlign env).1 ∧
    Event.recover (landmarks a) (pAlignedOf env a b) ∈ (rayAlign env).1 := by
  rw [rayAlign_cross env a b hself hcross hla hlb]
  refine ⟨?_, ?_, ?_, ?_⟩
  · cases hl : env.loc <;> cases hn : env.nonrigid <;>
      simp [crossEvents, crossTail, hl, hn]
  · intro hl
    refine ⟨[], (if env.verbose then
        [Event.saveFile (env.stubA ++ "_coarse_aligned.ply") (env.coarse a b)]
      else []) ++ crossTail env a b, ?_, ?_⟩
    · simp [crossEvents, hl]
    · simp [crossTail]
  · simp [crossEvents, crossTail]
  · simp [crossEvents, crossTail]

/-- Closed instantiation of the stage-sequencing theorem. -/
theorem pipeline_stage_sequencing_witness :
    (Event.coarseAlignRun ∈ (rayAlign envDemo).1 ↔ envDemo.loc = false) ∧
    (envDemo.loc = false →
      ∃ l1 l2, (rayAlign envDemo).1 = l1 ++ Event.coarseAlignRun :: l2 ∧
        Event.fineAlignRun envDemo.nonrigid ∈ l2) ∧
    Event.fineAlignRun envDemo.nonrigid ∈ (rayAlign envDemo).1 ∧
    Event.recover (landmarks demoCloud) (pAlignedOf envDemo demoCloud cloudB) ∈
      (rayAlign envDemo).1 :=
  pipeline_stage_sequencing envDemo demoCloud cloudB rfl rfl rfl rfl

/-- C5: every cross-cloud failure — command-line parse failure or failure
to load either cloud — aborts before any output file is written: no save
event occurs on any failing path. -/
theorem no_save_on_cross_failure (env : Env) (hself : env.selfParse = false)
    (hfail : env.crossParse = false ∨ env.loadA = none ∨ env.loadB = none) :
    ∀ n c, Event.saveFile n c ∉ (rayAlign env).1 := by
  intro n c
  rcases hfail with hf | hf | hf
  · simp [rayAlign, hself, hf]
  · cases hcp : env.crossParse
    · simp [rayAlign, hself, hcp]
    · simp [rayAlign, hself, hcp, hf]
  · cases hcp : env.crossParse
    · simp [rayAlign, hself, hcp]
    · cases hla : env.loadA
      · simp [rayAlign, hself, hcp, hla]
      · simp [rayAlign, hself, hcp, hla, hf]

/-- Closed instantiation of the no-save-on-failure theorem. -/
theorem no_save_on_cross_failure_witness :
    Event.saveFile "cloudA_aligned.ply" demoCloud ∉ (rayAlign envFail).1 :=
  no_save_on_cross_failure envFail rfl (Or.inl rfl) "cloudA_aligned.ply" demoCloud

/-- C6: invalid or missing arguments, a cloud-load failure, and a
single-cloud axis-alignment failure all print the usage text and terminate
with a non-zero exit status. -/
theorem usage_and_nonzero_exit_on_failure (env : Env)
    (hfail : (env.crossParse = false ∧ env.selfParse = false) ∨
             (env.selfParse = true ∧ env.axisAlignOk = false) ∨
             (env.selfParse = false ∧ env.crossParse = true ∧
               (env.loadA = none ∨ env.loadB = none))) :
    Event.printUsage ∈ (rayAlign env).1 ∧ (rayAlign env).2 ≠ 0 := by
  rcases hfail with ⟨hc, hs⟩ | ⟨hs, hax⟩ | ⟨hs, hc, hl⟩
  · simp [rayAlign, hc, hs]
  · cases hcp : env.crossParse <;> simp [rayAlign, hs, hax, hcp]
  · rcases hl with hl | hl
    · simp [rayAlign, hs, hc, hl]
    · cases hla : env.loadA
      · simp [rayAlign, hs, hc, hla]
      · simp [rayAlign, hs, hc, hla, hl]

/-- Closed instantiation of the usage-on-failure theorem. -/
theorem usage_and_nonzero_exit_on_failure_witness :
    Event.printUsage ∈ (rayAlign envFail).1 ∧ (rayAlign envFail).2 ≠ 0 :=
  usage_and_nonzero_exit_on_failure envFail (Or.inl ⟨rfl, rfl⟩)

lemma coarse_name_ne (s : String) :
    ¬ (s ++ "_coarse_aligned.ply" = s ++ "_aligned.ply") := by
  intro hcontra
  have h2 := congrArg String.length hcontra
  rw [String.length_append, String.length_append] at h2
  have e1 : ("_coarse_aligned.ply" : String).length = 19 := rfl
  have e2 : ("_aligned.ply" : String).length = 12 := rfl
  rw [e1, e2] at h2
  omega

/-- C7: a successful cross-cloud run saves the aligned cloud to
`<cloudA-stub>_aligned.ply`; the diagnostic `<cloudA-stub>_coarse_aligned.ply`
is written iff `--verbose` is set and `--local` is not; and a successful
single-cloud run writes `<cloud-stub>_aligned.ply`. -/
theorem output_file_naming (env : Env) :
    (∀ a b : Cloud, env.selfParse = false → env.crossParse = true →
      env.loadA = some a → env.loadB = some b →
      Event.saveFile (env.stubA ++ "_aligned.ply") (crossMoved env a b) ∈
        (rayAlign env).1 ∧
      (Event.saveFile (env.stubA ++ "_coarse_aligned.ply") (env.coarse a b) ∈
          (rayAlign env).1 ↔
        (env.verbose = true ∧ env.loc = false))) ∧
    (env.selfParse = true → env.axisAlignOk = true →
      Event.saveFile (env.stubA ++ "_aligned.ply") env.axisOut ∈
        (rayAlign env).1) := by
  constructor
  · intro a b hself hcross hla hlb
    rw [rayAlign_cross env a b hself hcross hla hlb]
    constructor
    · simp [crossEvents, crossTail]
    · cases hl : env.loc <;> cases hv : env.verbose <;> cases hn : env.nonrigid <;>
        simp [crossEvents, crossTail, hl, hv, hn, coarse_name_ne]
  · intro hs hax
    simp [rayAlign, hs, hax]

/-- Closed instantiation of the output-naming theorem (cross-cloud part). -/
theorem output_file_naming_witness :
    Event.saveFile (envDemo.stubA ++ "_aligned.ply")
      (crossMoved envDemo demoCloud cloudB) ∈ (rayAlign envDemo).1 ∧
    (Event.saveFile (envDemo.stubA ++ "_coarse_aligned.ply")
        (envDemo.coarse demoCloud cloudB) ∈ (rayAlign envDemo).1 ↔
      (envDemo.verbose = true ∧ envDemo.loc = false)) :=
  (output_file_naming envDemo).1 demoCloud cloudB rfl rfl rfl rfl

/-- C8: a successful cross-cloud run prints the recovered transform as the
Euler angles of the recovered rotation — Eigen's `eulerAngles(0,1,2)`
extraction, components in roll, pitch, yaw order — each converted to degrees
by the factor 180/pi, followed by the recovered translation vector; and the
note that the reported rigid transform is only approximate is printed iff
`--nonrigid` was set. -/
theorem transform_report_format (env : Env) (a b : Cloud)
    (hself : env.selfParse = false) (hcross : env.crossParse = true)
    (hla : env.loadA = some a) (hlb : env.loadB = some b) :
    Event.printTransform env.stubA
      ((env.eulerAngles (crossRecovered env a b).1).x * 180 / env.piVal)
      ((env.eulerAngles (crossRecovered env a b).1).y * 180 / env.piVal)
      ((env.eulerAngles (crossRecovered env a b).1).z * 180 / env.piVal)
      (crossRecovered env a b).2 ∈ (rayAlign env).1 ∧
    (Event.printApproxNote ∈ (rayAlign env).1 ↔ env.nonrigid = true) := by
  rw [rayAlign_cross env a b hself hcross hla hlb]
  constructor
  · simp [crossEvents, crossTail]
  · cases hn : env.nonrigid <;> cases hl : env.loc <;> cases hv : env.verbose <;>
      simp [crossEvents, crossTail, hn, hl, hv]

/-- Closed instantiation of the transform-report theorem. -/
theorem transform_report_format_witness :
    Event.printTransform envDemo.stubA
      ((envDemo.eulerAngles (crossRecovered envDemo demoCloud cloudB).1).x * 180 /
        envDemo.piVal)
      ((envDemo.eulerAngles (crossRecovered envDemo demoCloud cloudB).1).y * 180 /
        envDemo.piVal)
      ((envDemo.eulerAngles (crossRecovered envDemo demoCloud cloudB).1).z * 180 /
        envDemo.piVal)
      (crossRecovered envDemo demoCloud cloudB).2 ∈ (rayAlign envDemo).1 ∧
    (Event.printApproxNote ∈ (rayAlign envDemo).1 ↔ envDemo.nonrigid = true) :=
  transform_report_format envDemo demoCloud cloudB rfl rfl rfl rfl

/-- Componentwise difference of two points. -/
def sub3 (u v : V3) : V3 :=
  ⟨u.x - v.x, u.y - v.y, u.z - v.z⟩

/-- Cross product of two vectors. -/
def cross3 (u v : V3) : V3 :=
  ⟨u.y * v.z - u.z * v.y, u.z * v.x - u.x * v.z, u.x * v.y - u.y * v.x⟩

/-- Exact collinearity of three points: the cross product of the two
difference vectors vanishes. -/
def collinearPts (p q r : V3) : Prop :=
  cross3 (sub3 q p) (sub3 r p) = ⟨0, 0, 0⟩

/-- Cloud whose end-points all lie on the x-axis, so the three selected
landmarks are collinear. -/
def collinearCloud : Cloud := [⟨0, 0, 0⟩, ⟨1, 0, 0⟩, ⟨2, 0, 0⟩]

/-- Environment whose cloud A has exactly collinear landmarks. -/
def envCollinear : Env :=
  { envDemo with loadA := some collinearCloud, loc := true,
                 verbose := false, nonrigid := false }

/-- C3 counterexample: feeding transform recovery 3 exactly collinear
landmark points raises no `DegenerateLandmarks` error — the driver has no
degeneracy guard.  On this concrete run the landmarks are collinear, yet the
run completes with exit status 0, raises no error of any kind, and reports a
transform. -/
theorem degenerate_landmarks_counterexample :
    collinearPts (landmarks collinearCloud).1 (landmarks collinearCloud).2.1
      (landmarks collinearCloud).2.2 ∧
    (rayAlign envCollinear).2 = 0 ∧
    (∀ k : ErrorKind, Event.raiseError k ∉ (rayAlign envCollinear).1) ∧
    (∃ stub r p yw t, Event.printTransform stub r p yw t ∈
      (rayAlign envCollinear).1) := by
  have hrun : rayAlign envCollinear =
      (crossEvents envCollinear collinearCloud cloudB, 0) :=
    rayAlign_cross envCollinear collinearCloud cloudB rfl rfl rfl rfl
  have hlm : landmarks collinearCloud = (⟨0, 0, 0⟩, ⟨2, 0, 0⟩, ⟨0, 0, 0⟩) := by
    decide
  refine ⟨?_, ?_, ?_, ?_⟩
  · rw [hlm]
    show collinearPts ⟨0, 0, 0⟩ ⟨2, 0, 0⟩ ⟨0, 0, 0⟩
    unfold collinearPts cross3 sub3
    norm_num
  · rw [hrun]
  · intro k
    rw [hrun]
    simp [crossEvents, crossTail, envCollinear]
  · refine ⟨envCollinear.stubA,
      (envCollinear.eulerAngles
        (crossRecovered envCollinear collinearCloud cloudB).1).x * 180 /
        envCollinear.piVal,
      (envCollinear.eulerAngles
        (crossRecovered envCollinear collinearCloud cloudB).1).y * 180 /
        envCollinear.piVal,
      (envCollinear.eulerAngles
        (crossRecovered envCollinear collinearCloud cloudB).1).z * 180 /
        envCollinear.piVal,
      (crossRecovered envCollinear collinearCloud cloudB).2, ?_⟩
    rw [hrun]
    simp [crossEvents, crossTail]

/-- C3 amended: transform recovery is unguarded — on every cross-cloud run
with successfully loaded clouds, collinear landmarks included, the driver
raises no error (in particular never `DegenerateLandmarks`) and completes
with exit status 0, reporting whatever absolute orientation returns;
degeneracy is mitigated only by the spread-maximising landmark selection. -/
theorem transform_recovery_unguarded (env : Env) (a b : Cloud)
    (hself : env.selfParse = false) (hcross : env.crossParse = true)
    (hla : env.loadA = some a) (hlb : env.loadB = some b) :
    (rayAlign env).2 = 0 ∧
    ∀ k : ErrorKind, Event.raiseError k ∉ (rayAlign env).1 := by
  rw [rayAlign_cross env a b hself hcross hla hlb]
  refine ⟨rfl, ?_⟩
  intro k
  cases hl : env.loc <;> cases hv : env.verbose <;> cases hn : env.nonrigid <;>
    simp [crossEvents, crossTail, hl, hv, hn]

/-- Closed instantiation of the unguarded-recovery theorem on the collinear
environment. -/
theorem transform_recovery_unguarded_witness :
    (rayAlign envCollinear).2 = 0 ∧
    ∀ k : ErrorKind, Event.raiseError k ∉ (rayAlign envCollinear).1 :=
  transform_recovery_unguarded envCollinear collinearCloud cloudB rfl rfl rfl rfl

end RayAlignTool
